import Mathlib

/-!
Verification of the query/cache/drill-down subsystem of the health-event
analytics dashboard server (`health-dashboard/server.js`).

The relevant server code is shallowly embedded below:

* the drill-down filter validation and predicate construction of the
  `GET /api/drill-down-details` handler;
* the TTL-based critical-events report cache (`GET
  /api/critical-events-analysis-cached*` readers and the cache write in the
  `POST /api/critical-events-analysis-refresh*` close handlers);
* the HTML extraction applied to captured subprocess stdout, on both the
  synchronous refresh path and the streaming path;
* the event-driven delivery guards of the refresh and streaming analysis
  handlers, as explicit state machines over the triggers that can fire
  (the two 60-second timers, the process close event, stdout/stderr data);
* the event-type bucket classifier (`generateEventTypeStatsData`);
* the paginated full-table scan loop (`scanAllPages`);
* the route/auth table of the HTTP facade;
* `validateAndSanitizePrompt` and the argument passed to the spawned
  analysis subprocess.

JavaScript numbers that take part in TTL arithmetic are modelled as exact
rationals (the quantities involved are far from the regime where IEEE-754
rounding could flip the comparisons at issue); epoch-millisecond timestamps
are integers.  JavaScript strings are modelled as Lean strings or lists of
characters; `String.length` agrees with the JavaScript `length` on the
ASCII data handled here.
-/

/-! ### Generic helpers for JavaScript string semantics -/

/-- Whitespace as treated by JavaScript `String.prototype.trim` (the code
points relevant to this code base: ASCII whitespace, NBSP, BOM, and the
line/paragraph separators). -/
def jsWhitespace (c : Char) : Bool :=
  c.toNat = 32 || c.toNat = 9 || c.toNat = 10 || c.toNat = 11 || c.toNat = 12 ||
  c.toNat = 13 || c.toNat = 160 || c.toNat = 65279 || c.toNat = 8232 || c.toNat = 8233

/-- JavaScript `trim` on a character list: drop whitespace from both ends. -/
def jsTrim (xs : List Char) : List Char :=
  ((xs.dropWhile jsWhitespace).reverse.dropWhile jsWhitespace).reverse

/-- All indices at which `pat` occurs as a contiguous sublist of the
argument, in increasing order. -/
def subOccurrences (pat : List Char) : List Char → List Nat
  | [] => if pat.isPrefixOf ([] : List Char) then [0] else []
  | c :: t =>
    (if pat.isPrefixOf (c :: t) then [0] else []) ++ (subOccurrences pat t).map (· + 1)

/-- Index of the first occurrence of `pat` in `hay` (JavaScript
`String.prototype.indexOf` / the start of the first regex match for a
literal pattern). -/
def findSub (pat hay : List Char) : Option Nat :=
  (subOccurrences pat hay).head?

/-- Index of the last occurrence of `pat` in `hay` (JavaScript
`String.prototype.lastIndexOf`). -/
def findSubLast (pat hay : List Char) : Option Nat :=
  (subOccurrences pat hay).getLast?

/-- JavaScript `String.prototype.substring(a, b)`: the smaller argument is
used as the start (the arguments are swapped when `a > b`). -/
def jsSubstring (xs : List Char) (a b : Nat) : List Char :=
  if a ≤ b then (xs.take b).drop a else (xs.take a).drop b

/-- Lower-casing for the case-insensitive regex flags used by the server
(the patterns involved are pure ASCII). -/
def lowerAll (xs : List Char) : List Char :=
  xs.map Char.toLower

/-! ### Drill-down query builder (`GET /api/drill-down-details`)

The handler parses the `filters` query parameter as JSON, checks
`validFilters.some(key => parsedFilters[key])`, and then builds one
DynamoDB filter-expression clause per recognized key that passes that
key's own guard.  The claims quantify over string-valued filter objects,
so a filter is modelled as eight optional strings. -/

/-- One clause of the assembled DynamoDB `FilterExpression`: either an
attribute-equality comparison or a `contains(attr, v)` test. -/
inductive Clause where
  | eqAttr (attr : String) (v : String)
  | containsAttr (attr : String) (v : String)
deriving DecidableEq

/-- A drill-down filter object restricted to the recognized keys
(`validFilters` in the handler), each carrying an optional string value. -/
structure DrillFilters where
  account : Option String
  region : Option String
  eventCategory : Option String
  service : Option String
  status_code : Option String
  event_type : Option String
  start_time : Option String
  arn : Option String
deriving DecidableEq

/-- The empty filter object. -/
def emptyFilters : DrillFilters :=
  DrillFilters.mk none none none none none none none none

/-- JavaScript truthiness of an optional string value: present and
non-empty. -/
def jsTruthyStr : Option String → Bool
  | none => false
  | some s => !(s == "")

/-- `validFilters.some(key => parsedFilters[key])` from the handler: at
least one recognized key holds a truthy value. -/
def hasValidFilter (f : DrillFilters) : Bool :=
  jsTruthyStr f.account || jsTruthyStr f.region || jsTruthyStr f.eventCategory ||
  jsTruthyStr f.service || jsTruthyStr f.status_code || jsTruthyStr f.event_type ||
  jsTruthyStr f.start_time || jsTruthyStr f.arn

/-- The guard-and-append step used for `account`, `region`, `service`,
`status_code`, `event_type`, `start_time` and `arn`: the value must be
truthy, not the literal string `undefined`, and not empty. -/
def simpleClause (attr : String) (v : Option String) : List Clause :=
  match v with
  | none => []
  | some s => if s ≠ "" ∧ s ≠ "undefined" then [Clause.eqAttr attr s] else []

/-- The `eventCategory` branch of the handler: remap
`plannedChange` to `scheduledChange`, then pick literal-event-type
equality, the `PLANNED_LIFECYCLE_EVENT` special case (synthesized code if
a truthy `service` filter is present, containment otherwise), or plain
category equality. -/
def eventCategoryClause (cat : String) (service : Option String) : Clause :=
  let mapped := if cat = "plannedChange" then "scheduledChange" else cat
  if mapped.toList.contains '_' ∧ mapped.toList.length > 20 then
    Clause.eqAttr "event_type" mapped
  else if mapped = "PLANNED_LIFECYCLE_EVENT" then
    if jsTruthyStr service then
      Clause.eqAttr "event_type" ("AWS_" ++ service.getD "" ++ "_PLANNED_LIFECYCLE_EVENT")
    else
      Clause.containsAttr "event_type" "PLANNED_LIFECYCLE_EVENT"
  else
    Clause.eqAttr "eventCategory" mapped

/-- The full clause list (`filterExpressions`) assembled by the handler, in
source order.  The `eventCategory` clause is appended whenever the raw
value is truthy (that branch has no `undefined`/empty-string guard). -/
def filterExpressions (f : DrillFilters) : List Clause :=
  simpleClause "account" f.account ++
  simpleClause "region" f.region ++
  (match f.eventCategory with
   | none => []
   | some c => if c ≠ "" then [eventCategoryClause c f.service] else []) ++
  simpleClause "service" f.service ++
  simpleClause "status_code" f.status_code ++
  simpleClause "event_type" f.event_type ++
  simpleClause "start_time" f.start_time ++
  simpleClause "arn" f.arn

/-- Outcome of the handler after JSON parsing succeeded: reject with
HTTP 400, or execute the paginated scan with the assembled clauses (an
empty clause list means the scan runs with no `FilterExpression` at all). -/
inductive DrillOutcome where
  | badRequest
  | scanWith (clauses : List Clause)
deriving DecidableEq

/-- The handler's validation-then-scan control flow. -/
def drillDownHandler (f : DrillFilters) : DrillOutcome :=
  if hasValidFilter f then DrillOutcome.scanWith (filterExpressions f)
  else DrillOutcome.badRequest

/-- A filter whose only recognized key carries the literal string
`undefined`. -/
def undefinedOnlyFilter : DrillFilters :=
  DrillFilters.mk (some "undefined") none none none none none none none

/-- Modelled from the claim wording of C5: after remapping, (a) underscore
and length over 20 means literal event-type equality; (b) else the
`PLANNED_LIFECYCLE_EVENT` sentinel synthesizes `AWS_<service>_…` equality
when a service filter is present and containment otherwise; (c) else plain
category equality. -/
def specEventCategoryClause (cat : String) (service : Option String) : Clause :=
  let remapped := if cat = "plannedChange" then "scheduledChange" else cat
  if remapped.toList.contains '_' ∧ remapped.toList.length > 20 then
    Clause.eqAttr "event_type" remapped
  else if remapped = "PLANNED_LIFECYCLE_EVENT" then
    if jsTruthyStr service then
      Clause.eqAttr "event_type" ("AWS_" ++ service.getD "" ++ "_PLANNED_LIFECYCLE_EVENT")
    else
      Clause.containsAttr "event_type" "PLANNED_LIFECYCLE_EVENT"
  else
    Clause.eqAttr "eventCategory" remapped

/-- Filter `{"eventCategory":"plannedChange"}`. -/
def plannedChangeFilter : DrillFilters :=
  DrillFilters.mk none none (some "plannedChange") none none none none none

/-- Filter `{"eventCategory":"scheduledChange"}`. -/
def scheduledChangeFilter : DrillFilters :=
  DrillFilters.mk none none (some "scheduledChange") none none none none none

/-! ### TTL report cache (critical-events analyses)

A cache file holds `timestamp` (ISO string, modelled as epoch
milliseconds), an optional `ttl_hours` number, the `analysis` payload and
the prompt.  The readers compute `ageHours = (now − cacheTime)/3600000`
and serve the payload when `ageHours < (ttl_hours || 1)`; the refresh
close handlers re-read any existing file to carry `ttl_hours` forward. -/

/-- A stored critical-events cache entry. -/
structure AnalysisCacheEntry where
  timestamp : Int
  ttl_hours : Option ℚ
  analysis : String
  promptText : String
deriving DecidableEq

/-- JavaScript `cacheData.ttl_hours || 1`: the default 1 applies when the
field is absent and also when it holds the falsy number 0. -/
def jsOrDefaultTtl (t : Option ℚ) : ℚ :=
  match t with
  | none => 1
  | some x => if x = 0 then 1 else x

/-- Response of the cached-GET readers. -/
inductive CachedReadResult where
  | cachedPayload (output : String) (lastRefreshed : Int) (ttlHours : ℚ)
  | needsRefresh
deriving DecidableEq

/-- The `GET /api/critical-events-analysis-cached[-60|-pastdue]` read: a
fresh entry is served with `success:true`; a missing or stale file yields
`{success:false, needsRefresh:true}`. -/
def criticalEventsCachedRead (file : Option AnalysisCacheEntry) (now : Int) : CachedReadResult :=
  match file with
  | none => CachedReadResult.needsRefresh
  | some e =>
    let ttlHours := jsOrDefaultTtl e.ttl_hours
    let ageHours : ℚ := ((now : ℚ) - (e.timestamp : ℚ)) / (1000 * 60 * 60)
    if ageHours < ttlHours then
      CachedReadResult.cachedPayload e.analysis e.timestamp ttlHours
    else
      CachedReadResult.needsRefresh

/-- The cached-GET handler paired with the file state it leaves behind:
the handler only reads, so the file state is returned unchanged (a stale
file is not deleted). -/
def criticalEventsCachedHandler (file : Option AnalysisCacheEntry) (now : Int) :
    CachedReadResult × Option AnalysisCacheEntry :=
  (criticalEventsCachedRead file now, file)

/-- State of the cache file as seen by the refresh close handler: absent,
present but unparseable, or readable. -/
inductive CacheFileState where
  | absent
  | unreadable
  | readable (e : AnalysisCacheEntry)
deriving DecidableEq

/-- `existingTtl` as computed by the refresh close handler: default 1,
overridden by `existingCache.ttl_hours || 1` when the file exists and
parses. -/
def existingTtlOf : CacheFileState → ℚ
  | CacheFileState.absent => 1
  | CacheFileState.unreadable => 1
  | CacheFileState.readable e => jsOrDefaultTtl e.ttl_hours

/-- The cache entry written by a successful refresh: fresh timestamp and
payload, `ttl_hours` carried forward via `existingTtl`. -/
def refreshCacheWrite (prior : CacheFileState) (now : Int) (html promptText : String) :
    AnalysisCacheEntry :=
  AnalysisCacheEntry.mk now (some (existingTtlOf prior)) html promptText

/-! ### Small facts used by several claim proofs -/

theorem jsTruthyStr_eq_false (v : Option String) :
    jsTruthyStr v = false ↔ v.getD "" = "" := by
  cases v with
  | none => simp [jsTruthyStr]
  | some s => simp [jsTruthyStr]

/-! ### Claim C1 -/

/-- C1 counterexample: the filter object `{"account":"undefined"}` carries
no recognized key with a non-empty, non-`undefined` string value and
produces zero predicate clauses, yet the request is not rejected — it
executes as an unfiltered scan. -/
theorem C1_counterexample :
    filterExpressions undefinedOnlyFilter = [] ∧
    drillDownHandler undefinedOnlyFilter = DrillOutcome.scanWith [] ∧
    drillDownHandler undefinedOnlyFilter ≠ DrillOutcome.badRequest := by
  refine ⟨by decide, by decide, by decide⟩

/-- C1 amended: a drill-down request is rejected with HTTP 400 exactly
when every recognized key is absent or empty — truthiness of the raw
values, not clause production, is what is validated.  A value equal to the
literal string `undefined` passes validation, and since it produces no
clause for the seven direct-equality keys, such a request executes as an
unfiltered scan (second conjunct). -/
theorem C1_drill_down_validation (f : DrillFilters) :
    (drillDownHandler f = DrillOutcome.badRequest ↔
      [f.account, f.region, f.eventCategory, f.service, f.status_code,
       f.event_type, f.start_time, f.arn].all (fun v => v.getD "" == "") = true) ∧
    drillDownHandler undefinedOnlyFilter = DrillOutcome.scanWith [] := by
  constructor
  · by_cases h : hasValidFilter f = true
    · simp only [drillDownHandler, h, if_true]
      constructor
      · intro hc; exact absurd hc (by simp)
      · intro hall
        exfalso
        simp only [hasValidFilter, Bool.or_eq_true] at h
        simp only [List.all_cons, List.all_nil, Bool.and_eq_true, beq_iff_eq] at hall
        rcases h with ((((((h | h) | h) | h) | h) | h) | h) | h <;>
          rw [← Bool.not_eq_false] at h <;>
          exact h ((jsTruthyStr_eq_false _).mpr (by tauto))
    · have h' : hasValidFilter f = false := by
        cases hv : hasValidFilter f
        · rfl
        · exact absurd hv h
      simp only [drillDownHandler, h', if_false]
      constructor
      · intro _
        simp only [hasValidFilter, Bool.or_eq_false_iff] at h'
        simp only [List.all_cons, List.all_nil, Bool.and_eq_true, beq_iff_eq]
        obtain ⟨⟨⟨⟨⟨⟨⟨h1, h2⟩, h3⟩, h4⟩, h5⟩, h6⟩, h7⟩, h8⟩ := h'
        exact ⟨(jsTruthyStr_eq_false _).mp h1, (jsTruthyStr_eq_false _).mp h2,
               (jsTruthyStr_eq_false _).mp h3, (jsTruthyStr_eq_false _).mp h4,
               (jsTruthyStr_eq_false _).mp h5, (jsTruthyStr_eq_false _).mp h6,
               (jsTruthyStr_eq_false _).mp h7, (jsTruthyStr_eq_false _).mp h8, trivial⟩
      · intro _; rfl
  · decide

/-! ### Claim C5 -/

/-- C5: the `eventCategory` clause construction follows exactly the
remap-then-three-way decision tree stated in the specification, and the
filters `{"eventCategory":"plannedChange"}` and
`{"eventCategory":"scheduledChange"}` produce the same predicate and the
same handler outcome. -/
theorem C5_event_category_decision_tree :
    (∀ (cat : String) (service : Option String),
      eventCategoryClause cat service = specEventCategoryClause cat service) ∧
    filterExpressions plannedChangeFilter = filterExpressions scheduledChangeFilter ∧
    drillDownHandler plannedChangeFilter = drillDownHandler scheduledChangeFilter := by
  refine ⟨fun cat service => rfl, by decide, by decide⟩

/-! ### Claim C3 -/

/-- An entry with `ttl_hours` stored as 0 (operator-tuned file). -/
def zeroTtlEntry : AnalysisCacheEntry :=
  AnalysisCacheEntry.mk 0 (some 0) "CACHED" "p"

/-- C3 counterexample: with stored `ttl_hours = 0` and age 0.5 hours the
claim demands `needsRefresh` (0.5 < 0 is false), but `ttl_hours || 1`
treats the stored 0 as absent, so the reader serves the cached payload
with `ttlHours = 1`. -/
theorem C3_counterexample :
    criticalEventsCachedRead (some zeroTtlEntry) 1800000 =
      CachedReadResult.cachedPayload "CACHED" 0 1 ∧
    ¬ (((1800000 : ℚ) - 0) / (1000 * 60 * 60) < (0 : ℚ)) := by
  constructor
  · simp only [criticalEventsCachedRead, zeroTtlEntry, jsOrDefaultTtl]
    norm_num
  · norm_num

/-- C3 amended: a cached critical-events GET serves the stored payload
exactly when `(now − T)/3600000 < H` with `H = ttl_hours || 1` — the
default 1 applies when `ttl_hours` is absent *or stored as the falsy
number 0 — and otherwise (stale or missing file) answers `needsRefresh`;
the handler never modifies the file, so a stale entry is not deleted. -/
theorem C3_cache_ttl_read (e : AnalysisCacheEntry) (now : Int) :
    (criticalEventsCachedHandler (some e) now).2 = some e ∧
    (criticalEventsCachedHandler none now).1 = CachedReadResult.needsRefresh ∧
    ((criticalEventsCachedHandler (some e) now).1 =
        CachedReadResult.cachedPayload e.analysis e.timestamp (jsOrDefaultTtl e.ttl_hours) ↔
      ((now : ℚ) - (e.timestamp : ℚ)) / (1000 * 60 * 60) < jsOrDefaultTtl e.ttl_hours) ∧
    ((criticalEventsCachedHandler (some e) now).1 = CachedReadResult.needsRefresh ↔
      ¬ ((now : ℚ) - (e.timestamp : ℚ)) / (1000 * 60 * 60) < jsOrDefaultTtl e.ttl_hours) := by
  refine ⟨rfl, rfl, ?_, ?_⟩ <;>
    by_cases h : ((now : ℚ) - (e.timestamp : ℚ)) / (1000 * 60 * 60) < jsOrDefaultTtl e.ttl_hours <;>
    simp [criticalEventsCachedHandler, criticalEventsCachedRead, h]

/-! ### Claim C4 -/

/-- C4 counterexample: a prior entry that exists and is readable with
`ttl_hours = 0` is not propagated — the new entry gets the default 1, not
the prior value 0. -/
theorem C4_counterexample :
    (refreshCacheWrite (CacheFileState.readable zeroTtlEntry) 5 "new" "p").ttl_hours = some 1 ∧
    zeroTtlEntry.ttl_hours = some 0 ∧
    (refreshCacheWrite (CacheFileState.readable zeroTtlEntry) 5 "new" "p").ttl_hours ≠
      zeroTtlEntry.ttl_hours := by
  refine ⟨rfl, rfl, by decide⟩

/-- C4 amended: a successful refresh write carries the prior entry's
`ttl_hours` forward when the prior file exists, is readable, and stores a
nonzero `ttl_hours`; when no prior entry exists, it is unreadable, or its
`ttl_hours` is absent or the falsy 0, the new entry gets the default 1. -/
theorem C4_ttl_propagation (e : AnalysisCacheEntry) (now : Int) (html p : String) (q : ℚ) :
    (e.ttl_hours = some q → q ≠ 0 →
      (refreshCacheWrite (CacheFileState.readable e) now html p).ttl_hours = some q) ∧
    (refreshCacheWrite CacheFileState.absent now html p).ttl_hours = some 1 ∧
    (refreshCacheWrite CacheFileState.unreadable now html p).ttl_hours = some 1 ∧
    (e.ttl_hours = none ∨ e.ttl_hours = some 0 →
      (refreshCacheWrite (CacheFileState.readable e) now html p).ttl_hours = some 1) := by
  refine ⟨?_, rfl, rfl, ?_⟩
  · intro hq hq0
    simp [refreshCacheWrite, existingTtlOf, jsOrDefaultTtl, hq, hq0]
  · intro h
    rcases h with h | h <;> simp [refreshCacheWrite, existingTtlOf, jsOrDefaultTtl, h]

/-- C4 witness: an entry with `ttlHours = 6` that is refreshed still
carries 6. -/
theorem C4_ttl_propagation_witness :
    (refreshCacheWrite (CacheFileState.readable (AnalysisCacheEntry.mk 0 (some 6) "old" "p"))
      7200000 "new" "p").ttl_hours = some 6 :=
  (C4_ttl_propagation (AnalysisCacheEntry.mk 0 (some 6) "old" "p") 7200000 "new" "p" 6).1
    rfl (by norm_num)

/-! ### Event-type bucket classifier (`generateEventTypeStatsData`)

Each of the 6 buckets is a fixed list of regular expressions tested
(unanchored) against `event.event_type || ''`.  Every pattern in the
source has the shape `/.*_X.*/` (substring containment of `_X`) or
`/.*_X$/`, `/AWS_BILLING_NOTIFICATION$/` (suffix); they are embedded as
containment/suffix patterns. -/

/-- One regex of a bucket's pattern list. -/
inductive TypePattern where
  | containsPat (p : String)
  | endsWithPat (p : String)
deriving DecidableEq

/-- JavaScript `pattern.test(eventType)` for the two pattern shapes. -/
def matchTypePattern (s : String) : TypePattern → Bool
  | TypePattern.containsPat p => (findSub p.toList s.toList).isSome
  | TypePattern.endsWithPat p => p.toList.isSuffixOf s.toList

/-- The 6 event-type buckets. -/
inductive TypeBucket where
  | configurationAlerts
  | costImpactEvents
  | maintenanceUpdates
  | migrationRequirements
  | operationalNotifications
  | securityCompliance
deriving DecidableEq

/-- The fixed pattern table of `generateEventTypeStatsData`. -/
def bucketPatterns : TypeBucket → List TypePattern
  | TypeBucket.configurationAlerts =>
    [TypePattern.containsPat "_HIGH_RISK_CONFIG", TypePattern.endsWithPat "_PERSISTENCE_EXPIRING",
     TypePattern.endsWithPat "_RENEWAL_STATE_CHANGE", TypePattern.endsWithPat "_CUSTOMER_ENGAGEMENT",
     TypePattern.containsPat "_RUNAWAY_TERMINATION"]
  | TypeBucket.costImpactEvents =>
    [TypePattern.endsWithPat "AWS_BILLING_NOTIFICATION", TypePattern.containsPat "_ODCR_",
     TypePattern.containsPat "_SUBSCRIPTION_RENEWAL", TypePattern.containsPat "_CAPACITY_",
     TypePattern.containsPat "_UNDERUTILIZATION"]
  | TypeBucket.maintenanceUpdates =>
    [TypePattern.endsWithPat "_MAINTENANCE_SCHEDULED", TypePattern.endsWithPat "_MAINTENANCE_COMPLETE",
     TypePattern.endsWithPat "_MAINTENANCE_EXTENSION", TypePattern.endsWithPat "_UPDATE_AVAILABLE",
     TypePattern.endsWithPat "_UPDATE_COMPLETED", TypePattern.endsWithPat "_AUTO_UPGRADE_NOTIFICATION",
     TypePattern.endsWithPat "_UPCOMING_MAINTENANCE"]
  | TypeBucket.migrationRequirements =>
    [TypePattern.endsWithPat "_PLANNED_LIFECYCLE_EVENT",
     TypePattern.endsWithPat "_PERSISTENT_INSTANCE_RETIREMENT_SCHEDULED",
     TypePattern.endsWithPat "_TASK_PATCHING_RETIREMENT", TypePattern.endsWithPat "_VM_DEPRECATED"]
  | TypeBucket.operationalNotifications =>
    [TypePattern.endsWithPat "_OPERATIONAL_NOTIFICATION", TypePattern.endsWithPat "_OPERATIONAL_ISSUE",
     TypePattern.endsWithPat "_SERVICE_ISSUE", TypePattern.endsWithPat "_CLUSTER_HEALTH_ISSUES",
     TypePattern.endsWithPat "_POD_EVICTIONS", TypePattern.endsWithPat "_REDUNDANCY_LOSS",
     TypePattern.endsWithPat "_TUNNEL_NOTIFICATION", TypePattern.endsWithPat "_EXPERIMENT_EVENT"]
  | TypeBucket.securityCompliance =>
    [TypePattern.endsWithPat "_SECURITY_NOTIFICATION", TypePattern.endsWithPat "_SECURITY_PATCHING_EVENT"]

/-- An event record as projected by the stats scan
(`ProjectionExpression: 'event_type, service'`). -/
structure HealthEvent where
  event_type : Option String
  service : Option String
deriving DecidableEq

/-- `event.event_type || ''` from the bucket filter. -/
def eventTypeOf (e : HealthEvent) : String :=
  e.event_type.getD ""

/-- `patterns[category].some(pattern => pattern.test(eventType))`. -/
def matchesBucket (b : TypeBucket) (e : HealthEvent) : Bool :=
  (bucketPatterns b).any (fun p => matchTypePattern (eventTypeOf e) p)

/-- Per-bucket statistics of `generateEventTypeStatsData`: event count and
distinct count of the truthy `service` attributes of the matching
records. -/
def eventTypeStats (evs : List HealthEvent) (b : TypeBucket) : Nat × Nat :=
  let categoryEvents := evs.filter (fun e => matchesBucket b e)
  (categoryEvents.length,
   (((categoryEvents.filterMap HealthEvent.service).filter (fun s => !(s == ""))).dedup).length)

/-! ### Claim C7 -/

/-- C7: bucket membership is the disjunction of the bucket's pattern list
applied to `event_type || ''` (first conjunct); any-pattern matching is
invariant under permutation of the list (second conjunct); and a record
with a missing or empty `event_type` belongs to no bucket and contributes
nothing to the type stats (remaining conjuncts). -/
theorem C7_bucket_membership :
    (∀ (b : TypeBucket) (e : HealthEvent),
      matchesBucket b e = true ↔
        ∃ p ∈ bucketPatterns b, matchTypePattern (eventTypeOf e) p = true) ∧
    (∀ (l l' : List TypePattern) (s : String), l.Perm l' →
      l.any (fun p => matchTypePattern s p) = l'.any (fun p => matchTypePattern s p)) ∧
    (∀ (b : TypeBucket) (e : HealthEvent), e.event_type = none ∨ e.event_type = some "" →
      matchesBucket b e = false) ∧
    (∀ (b : TypeBucket) (e : HealthEvent) (evs : List HealthEvent),
      e.event_type = none ∨ e.event_type = some "" →
      eventTypeStats (e :: evs) b = eventTypeStats evs b) := by
  have hempty : ∀ (b : TypeBucket) (e : HealthEvent),
      e.event_type = none ∨ e.event_type = some "" → matchesBucket b e = false := by
    intro b e he
    have : eventTypeOf e = "" := by
      rcases he with h | h <;> simp [eventTypeOf, h]
    simp only [matchesBucket, this]
    cases b <;> decide
  refine ⟨?_, ?_, hempty, ?_⟩
  · intro b e
    simp [matchesBucket, List.any_eq_true]
  · intro l l' s h
    rw [Bool.eq_iff_iff]
    simp only [List.any_eq_true]
    constructor
    · rintro ⟨p, hp, hm⟩; exact ⟨p, h.mem_iff.mp hp, hm⟩
    · rintro ⟨p, hp, hm⟩; exact ⟨p, h.mem_iff.mpr hp, hm⟩
  · intro b e evs he
    simp [eventTypeStats, List.filter_cons, hempty b e he]

/-- C7 witness: permutation invariance applied to the reversed
configuration-alerts pattern list at a concrete event-type string, and the
no-bucket fact applied to a record with a missing `event_type`. -/
theorem C7_bucket_membership_witness :
    ((bucketPatterns TypeBucket.configurationAlerts).any
        (fun p => matchTypePattern "AWS_EC2_HIGH_RISK_CONFIG_CHANGE" p) =
      ((bucketPatterns TypeBucket.configurationAlerts).reverse).any
        (fun p => matchTypePattern "AWS_EC2_HIGH_RISK_CONFIG_CHANGE" p)) ∧
    matchesBucket TypeBucket.maintenanceUpdates (HealthEvent.mk none (some "EC2")) = false :=
  ⟨C7_bucket_membership.2.1 _ _ "AWS_EC2_HIGH_RISK_CONFIG_CHANGE" (List.reverse_perm _).symm,
   C7_bucket_membership.2.2.1 TypeBucket.maintenanceUpdates (HealthEvent.mk none (some "EC2"))
     (Or.inl rfl)⟩

/-! ### Paginated scan (`scanAllPages`)

The scan loop issues `dynamodb.scan`, appends `result.Items || []`, and
repeats with `ExclusiveStartKey = result.LastEvaluatedKey` while a key is
present.  The collaborator is modelled as a function from the optional
continuation token to a page and the next token; the do/while loop is
given fuel (the source loop simply runs as long as tokens keep coming, so
a run that still holds a token when the fuel is exhausted is `none`). -/

/-- The do/while body of `scanAllPages`: scan once, concatenate the page,
continue while a continuation token remains. -/
def scanLoop {α : Type} (db : Option Nat → List α × Option Nat) :
    Nat → Option Nat → List α → Option (List α)
  | 0, key, acc =>
    match db key with
    | (items, none) => some (acc ++ items)
    | (_, some _) => none
  | Nat.succ f, key, acc =>
    match db key with
    | (items, none) => some (acc ++ items)
    | (items, some k) => scanLoop db f (some k) (acc ++ items)

/-- `scanAllPages`: run the loop from no continuation token with an empty
accumulator. -/
def scanAllPages {α : Type} (db : Option Nat → List α × Option Nat) (fuel : Nat) :
    Option (List α) :=
  scanLoop db fuel none []

/-- Page index denoted by a continuation token (the first scan passes no
token and reads page 0). -/
def keyIdx : Option Nat → Nat
  | none => 0
  | some k => k

/-- A well-formed paginated collaborator over the page list `ps`: page `i`
carries the continuation token `i+1` exactly when it is not the last
page. -/
def chainDB {α : Type} (ps : List (List α)) : Option Nat → List α × Option Nat :=
  fun key =>
    (ps.getD (keyIdx key) [], if keyIdx key + 1 < ps.length then some (keyIdx key + 1) else none)

theorem scanLoop_chainDB {α : Type} (ps : List (List α)) :
    ∀ (fuel i : Nat) (acc : List α),
      ps.length ≤ i + fuel + 1 →
      i < ps.length →
      scanLoop (chainDB ps) fuel (some i) acc = some (acc ++ (ps.drop i).flatten) := by
  intro fuel
  induction fuel with
  | zero =>
    intro i acc hfuel hlt
    have hlast : ¬ (i + 1 < ps.length) := by omega
    have hdrop : ps.drop i = [ps.getD i []] := by
      have h2 : ps.drop (i + 1) = [] := List.drop_eq_nil_of_le (by omega)
      rw [List.drop_eq_getElem_cons hlt, h2, List.getD_eq_getElem ps [] hlt]
    simp [scanLoop, chainDB, keyIdx, hlast, hdrop]
  | succ f ih =>
    intro i acc hfuel hlt
    by_cases hnext : i + 1 < ps.length
    · have hdrop : ps.drop i = ps.getD i [] :: ps.drop (i + 1) := by
        rw [List.drop_eq_getElem_cons hlt, List.getD_eq_getElem ps [] hlt]
      have hrec := ih (i + 1) (acc ++ ps.getD i []) (by omega) hnext
      simp only [scanLoop, chainDB, keyIdx, hnext, if_true]
      rw [hrec, hdrop]
      simp
    · have hdrop : ps.drop i = [ps.getD i []] := by
        have h2 : ps.drop (i + 1) = [] := List.drop_eq_nil_of_le (by omega)
        rw [List.drop_eq_getElem_cons hlt, h2, List.getD_eq_getElem ps [] hlt]
      simp [scanLoop, chainDB, keyIdx, hnext, hdrop]

/-! ### Claim C8 -/

/-- C8: for a collaborator that serves the page list `ps`, each page
carrying a continuation token except the last, `scanAllPages` follows the
tokens to exhaustion and returns, in one call, the concatenation of all
pages' items in page order (so no caller ever observes a partial page). -/
theorem C8_pagination_completeness {α : Type} (ps : List (List α)) (fuel : Nat)
    (h : ps.length ≤ fuel + 1) :
    scanAllPages (chainDB ps) fuel = some ps.flatten := by
  have hbridge : scanLoop (chainDB ps) fuel none [] = scanLoop (chainDB ps) fuel (some 0) [] := by
    cases fuel <;> rfl
  cases ps with
  | nil => cases fuel <;> simp [scanAllPages, scanLoop, chainDB, keyIdx]
  | cons p rest =>
    have hrun := scanLoop_chainDB (p :: rest) fuel 0 [] (by simpa using h) (by simp)
    rw [scanAllPages, hbridge, hrun]
    simp

/-- C8 witness: a 3-page collaborator (tokens on pages 0 and 1, none on
page 2) yields the single concatenated result. -/
theorem C8_pagination_completeness_witness :
    scanAllPages (chainDB [[(1 : Nat), 2], [3], [4, 5]]) 2 = some [1, 2, 3, 4, 5] :=
  (C8_pagination_completeness [[(1 : Nat), 2], [3], [4, 5]] 2 (by decide)).trans (by decide)

/-! ### HTTP facade route/auth table

Transcription of the core subsystem's route registrations
(`app.get`/`app.post` in the server module) with a flag recording whether
the `requireAuth` middleware is attached.  `requireAuth` answers HTTP 401
when the session has no user and otherwise passes the request on. -/

/-- HTTP method of a registered route. -/
inductive HttpMethod where
  | get
  | post
deriving DecidableEq

/-- A registered route: method, path, and whether `requireAuth` guards
it. -/
structure Route where
  method : HttpMethod
  path : String
  auth : Bool
deriving DecidableEq

/-- The route registrations of the query/cache/drill-down/analysis core,
in source order. -/
def coreApiRoutes : List Route :=
  [Route.mk HttpMethod.get "/api/event-categories" true,
   Route.mk HttpMethod.get "/api/event-category-details/:categoryId" true,
   Route.mk HttpMethod.get "/api/event-type-stats" true,
   Route.mk HttpMethod.get "/api/event-type-details/:eventTypeId" true,
   Route.mk HttpMethod.get "/api/categories" true,
   Route.mk HttpMethod.get "/api/category/:categoryId" false,
   Route.mk HttpMethod.get "/api/cache-event-category-details/:categoryId" false,
   Route.mk HttpMethod.post "/api/refresh-cache" false,
   Route.mk HttpMethod.get "/api/critical-events-count" true,
   Route.mk HttpMethod.get "/api/critical-events-analysis-cached" false,
   Route.mk HttpMethod.post "/api/critical-events-analysis-refresh" true,
   Route.mk HttpMethod.get "/api/critical-events-analysis-cached-60" false,
   Route.mk HttpMethod.post "/api/critical-events-analysis-refresh-60" true,
   Route.mk HttpMethod.get "/api/critical-events-analysis-cached-pastdue" false,
   Route.mk HttpMethod.post "/api/critical-events-analysis-refresh-pastdue" true,
   Route.mk HttpMethod.get "/api/cached-prompts" false,
   Route.mk HttpMethod.get "/api/get-last-response" false,
   Route.mk HttpMethod.post "/api/agent-analysis-stream" true,
   Route.mk HttpMethod.post "/api/agent-analysis" true,
   Route.mk HttpMethod.get "/api/drill-down-details" true,
   Route.mk HttpMethod.get "/api/debug-s3-open" true]

/-- Outcome of dispatching a request through the optional `requireAuth`
gate. -/
inductive RequestOutcome where
  | unauthorized401
  | handled
deriving DecidableEq

/-- Request dispatch: a route guarded by `requireAuth` rejects an
unauthenticated session with 401 before its handler runs; an unguarded
route always reaches its handler. -/
def dispatch (r : Route) (authenticated : Bool) : RequestOutcome :=
  if r.auth && !authenticated then RequestOutcome.unauthorized401 else RequestOutcome.handled

/-- The two cached-GET path families the claim exempts (all three
critical-events cached readers). -/
def cachedCriticalGetPaths : List String :=
  ["/api/critical-events-analysis-cached", "/api/critical-events-analysis-cached-60",
   "/api/critical-events-analysis-cached-pastdue"]

/-- The paths of the core registrations that carry no `requireAuth`. -/
def unauthenticatedCorePaths : List String :=
  ["/api/category/:categoryId", "/api/cache-event-category-details/:categoryId",
   "/api/refresh-cache", "/api/critical-events-analysis-cached",
   "/api/critical-events-analysis-cached-60", "/api/critical-events-analysis-cached-pastdue",
   "/api/cached-prompts", "/api/get-last-response"]

/-- The bulk cache refresh registration (`app.post('/api/refresh-cache',
async (req, res) => …`, no middleware). -/
def refreshCacheRoute : Route :=
  Route.mk HttpMethod.post "/api/refresh-cache" false

/-! ### Claim C9 -/

/-- C9 counterexample: the bulk cache refresh — a mutation and not one of
the cached critical-events GETs — is registered without `requireAuth`, so
an unauthenticated request reaches its handler instead of being rejected
with 401. -/
theorem C9_counterexample :
    refreshCacheRoute ∈ coreApiRoutes ∧
    refreshCacheRoute.path ∉ cachedCriticalGetPaths ∧
    refreshCacheRoute.auth = false ∧
    dispatch refreshCacheRoute false = RequestOutcome.handled := by
  refine ⟨by decide, by decide, rfl, rfl⟩

/-- C9 amended: within the core route table, the registrations without
`requireAuth` are exactly the three cached critical-events GETs *plus*
`POST /api/refresh-cache`, `GET /api/cache-event-category-details/:id`,
`GET /api/category/:id`, `GET /api/cached-prompts` and
`GET /api/get-last-response`; every other core operation rejects an
unauthenticated request with HTTP 401 before running, while the listed
ones (including the bulk cache refresh) run unauthenticated. -/
theorem C9_route_auth (r : Route) (h : r ∈ coreApiRoutes) :
    (r.auth = false ↔ r.path ∈ unauthenticatedCorePaths) ∧
    (r.auth = true → dispatch r false = RequestOutcome.unauthorized401) ∧
    (r.auth = false → dispatch r false = RequestOutcome.handled) := by
  fin_cases h <;> exact ⟨by decide, by decide, by decide⟩

/-- C9 witness: the drill-down route (guarded) rejects an unauthenticated
request, while the cached critical-events reader (unguarded) serves it. -/
theorem C9_route_auth_witness :
    dispatch (Route.mk HttpMethod.get "/api/drill-down-details" true) false =
      RequestOutcome.unauthorized401 ∧
    dispatch (Route.mk HttpMethod.get "/api/critical-events-analysis-cached" false) false =
      RequestOutcome.handled :=
  ⟨(C9_route_auth (Route.mk HttpMethod.get "/api/drill-down-details" true) (by decide)).2.1 rfl,
   (C9_route_auth (Route.mk HttpMethod.get "/api/critical-events-analysis-cached" false)
     (by decide)).2.2 rfl⟩

/-! ### Prompt validation (`validateAndSanitizePrompt`)

The function rejects non-strings/empty prompts, prompts over 5000
characters, prompts whose trim is under 3 characters, prompts with a
character outside the whitelist, and prompts matching one of the
dangerous patterns; otherwise it returns the prompt with angle brackets
and ASCII control characters removed and the result trimmed. -/

/-- ASCII letter. -/
def isAsciiAlphaC (c : Char) : Bool :=
  (65 ≤ c.toNat && c.toNat ≤ 90) || (97 ≤ c.toNat && c.toNat ≤ 122)

/-- ASCII digit. -/
def isAsciiDigitC (c : Char) : Bool :=
  48 ≤ c.toNat && c.toNat ≤ 57

/-- Code points of the punctuation allowed by the whitelist regex
(`. , ! ? ; : ( ) - ' " @ # % & * + = [ ] \x7b \x7d / \ backtick _ < >`),
written numerically. -/
def safePunctCodes : List Nat :=
  [46, 44, 33, 63, 59, 58, 40, 41, 45, 39, 34, 64, 35, 37, 38, 42, 43, 61,
   91, 93, 123, 125, 47, 92, 96, 95, 60, 62]

/-- Membership in the whitelist character class of `SAFE_PROMPT_REGEX`
(alphanumerics, the `\s` class, the punctuation list, `\n`/`\r` being part
of `\s`). -/
def safePromptChar (c : Char) : Bool :=
  isAsciiAlphaC c || isAsciiDigitC c || jsWhitespace c || safePunctCodes.contains c.toNat

/-- ASCII control characters removed by the sanitization step
(`[\x00-\x1F\x7F]`). -/
def isControlChar (c : Char) : Bool :=
  c.toNat ≤ 31 || c.toNat = 127

/-- Does any suffix of the list satisfy `p`?  Used to express unanchored
regex tests. -/
def existsSuffix (p : List Char → Bool) : List Char → Bool
  | [] => p []
  | c :: t => p (c :: t) || existsSuffix p t

/-- Case-insensitive prefix test (for the `/i` regex flags). -/
def ciHasPrefix (pat xs : List Char) : Bool :=
  (lowerAll pat).isPrefixOf (lowerAll xs)

/-- Test for a dangerous pattern of the shape `tok` + `\s*` + `word`
(case-insensitive word), anywhere in the string — this covers
`/<\s*script/i`, `/\|\s*python/i`, `/;\s*python/i`, `/&&\s*python/i` and
`/\|\|\s*python/i`. -/
def tokenWsWord (tok word s : List Char) : Bool :=
  existsSuffix
    (fun suf => tok.isPrefixOf suf && ciHasPrefix word ((suf.drop tok.length).dropWhile jsWhitespace))
    s

/-- The `DANGEROUS_PATTERNS` check: command substitution `$(`, script
tags, and the four pipe/—separator-to-python forms. -/
def hasDangerousPattern (s : List Char) : Bool :=
  (findSub ("$(".toList) s).isSome ||
  tokenWsWord ("<".toList) ("script".toList) s ||
  tokenWsWord ("|".toList) ("python".toList) s ||
  tokenWsWord (";".toList) ("python".toList) s ||
  tokenWsWord ("&&".toList) ("python".toList) s ||
  tokenWsWord ("||".toList) ("python".toList) s

/-- Result of `validateAndSanitizePrompt`. -/
inductive PromptValidation where
  | invalid (error : String)
  | valid (sanitized : List Char)
deriving DecidableEq

/-- The sanitization pipeline: remove angle brackets, remove control
characters, trim. -/
def sanitizePipeline (p : List Char) : List Char :=
  jsTrim ((p.filter (fun c => !(c == '<' || c == '>'))).filter (fun c => !isControlChar c))

/-- `validateAndSanitizePrompt` — the input is an optional string (`none`
models a missing/non-string body field). -/
def validateAndSanitizePrompt (prompt : Option (List Char)) : PromptValidation :=
  match prompt with
  | none => PromptValidation.invalid "Prompt must be a non-empty string"
  | some p =>
    if p.isEmpty then PromptValidation.invalid "Prompt must be a non-empty string"
    else if p.length > 5000 then
      PromptValidation.invalid "Prompt exceeds maximum length of 5000 characters"
    else if (jsTrim p).length < 3 then
      PromptValidation.invalid "Prompt must be at least 3 characters"
    else if !(p.all safePromptChar) then PromptValidation.invalid "Prompt contains invalid characters"
    else if hasDangerousPattern p then
      PromptValidation.invalid "Prompt contains potentially dangerous patterns"
    else PromptValidation.valid (sanitizePipeline p)

/-- The only argument ever passed to the spawned analysis subprocess: all
five analysis handlers run `spawn(PYTHON_PATH, ['test_agentic_analysis.py',
validation.sanitized], …)` after a successful validation and return
HTTP 400 without spawning otherwise. -/
def analysisSpawnArg (prompt : Option (List Char)) : Option (List Char) :=
  match validateAndSanitizePrompt prompt with
  | PromptValidation.valid s => some s
  | PromptValidation.invalid _ => none

theorem dropWhile_head?_false {p : Char → Bool} :
    ∀ (l : List Char) (c : Char), (l.dropWhile p).head? = some c → p c = false := by
  intro l
  induction l with
  | nil => intro c h; simp at h
  | cons a t ih =>
    intro c h
    rw [List.dropWhile_cons] at h
    by_cases hp : p a
    · simp [hp] at h; exact ih c h
    · simp [hp] at h; subst h; simpa using hp

theorem mem_jsTrim {c : Char} {xs : List Char} (h : c ∈ jsTrim xs) : c ∈ xs := by
  simp only [jsTrim, List.mem_reverse] at h
  have h1 := (List.dropWhile_suffix jsWhitespace).sublist.mem h
  rw [List.mem_reverse] at h1
  exact (List.dropWhile_suffix jsWhitespace).sublist.mem h1

theorem length_jsTrim_le (xs : List Char) : (jsTrim xs).length ≤ xs.length := by
  simp only [jsTrim, List.length_reverse]
  calc ((xs.dropWhile jsWhitespace).reverse.dropWhile jsWhitespace).length
      ≤ (xs.dropWhile jsWhitespace).reverse.length :=
        (List.dropWhile_suffix jsWhitespace).sublist.length_le
    _ = (xs.dropWhile jsWhitespace).length := List.length_reverse _
    _ ≤ xs.length := (List.dropWhile_suffix jsWhitespace).sublist.length_le

theorem jsTrim_getLast?_not_ws {xs : List Char} {c : Char}
    (h : (jsTrim xs).getLast? = some c) : jsWhitespace c = false := by
  rw [jsTrim, List.getLast?_reverse] at h
  exact dropWhile_head?_false _ c h

theorem jsTrim_head?_not_ws {xs : List Char} {c : Char}
    (h : (jsTrim xs).head? = some c) : jsWhitespace c = false := by
  rw [jsTrim] at h
  have hsuf : List.IsSuffix ((xs.dropWhile jsWhitespace).reverse.dropWhile jsWhitespace)
      (xs.dropWhile jsWhitespace).reverse := List.dropWhile_suffix jsWhitespace
  obtain ⟨t, ht⟩ := hsuf
  have ht' : ((xs.dropWhile jsWhitespace).reverse.dropWhile jsWhitespace).reverse ++ t.reverse =
      xs.dropWhile jsWhitespace := by
    have := congrArg List.reverse ht
    simpa using this
  have hA : (xs.dropWhile jsWhitespace).head? = some c := by
    rw [← ht']
    cases hB : ((xs.dropWhile jsWhitespace).reverse.dropWhile jsWhitespace).reverse with
    | nil => rw [hB] at h; simp at h
    | cons b bs =>
      rw [hB] at h
      simp only [List.head?_cons, Option.some.injEq] at h
      simp [h]
  exact dropWhile_head?_false xs c hA

theorem validate_valid_inv {p a : List Char}
    (h : validateAndSanitizePrompt (some p) = PromptValidation.valid a) :
    a = sanitizePipeline p ∧ p.length ≤ 5000 := by
  simp only [validateAndSanitizePrompt] at h
  by_cases h1 : p.isEmpty
  · simp [h1] at h
  · by_cases h2 : p.length > 5000
    · simp [h1, h2] at h
    · by_cases h3 : (jsTrim p).length < 3
      · simp [h1, h2, h3] at h
      · by_cases h4 : p.all safePromptChar
        · by_cases h5 : hasDangerousPattern p
          · simp [h1, h2, h3, h4, h5] at h
          · simp only [h1, h2, h3, h4, h5, if_false, if_true, Bool.not_true, if_neg,
              Bool.not_eq_true', Bool.false_eq_true, reduceIte,
              PromptValidation.valid.injEq] at h
            exact ⟨h.symm, by omega⟩
        · simp [h1, h2, h3, h4] at h

/-! ### Claim C10 -/

/-- C10: whenever validation succeeds, the sanitized string — the only
form ever passed as the subprocess argument — contains no angle brackets
and no ASCII control characters, has no leading or trailing whitespace,
and is at most 5000 characters long. -/
theorem C10_sanitized_prompt_safety (prompt : Option (List Char)) (a : List Char)
    (h : analysisSpawnArg prompt = some a) :
    validateAndSanitizePrompt prompt = PromptValidation.valid a ∧
    (∀ c ∈ a, c ≠ '<' ∧ c ≠ '>' ∧ isControlChar c = false) ∧
    a.length ≤ 5000 ∧
    (∀ c, a.head? = some c → jsWhitespace c = false) ∧
    (∀ c, a.getLast? = some c → jsWhitespace c = false) := by
  have hval : validateAndSanitizePrompt prompt = PromptValidation.valid a := by
    unfold analysisSpawnArg at h
    cases hv : validateAndSanitizePrompt prompt with
    | invalid e => rw [hv] at h; simp at h
    | valid s => rw [hv] at h; simp at h; rw [h]
  cases prompt with
  | none => simp [validateAndSanitizePrompt] at hval
  | some p =>
    obtain ⟨ha, hlen⟩ := validate_valid_inv hval
    subst ha
    refine ⟨hval, ?_, ?_, ?_, ?_⟩
    · intro c hc
      simp only [sanitizePipeline] at hc
      have hc' := mem_jsTrim hc
      rw [List.mem_filter] at hc'
      obtain ⟨hc'', hctl⟩ := hc'
      rw [List.mem_filter] at hc''
      obtain ⟨_, hangle⟩ := hc''
      refine ⟨?_, ?_, by simpa using hctl⟩ <;> (intro heq; subst heq; simp at hangle)
    · simp only [sanitizePipeline]
      calc (jsTrim ((p.filter (fun c => !(c == '<' || c == '>'))).filter
              (fun c => !isControlChar c))).length
          ≤ ((p.filter (fun c => !(c == '<' || c == '>'))).filter
              (fun c => !isControlChar c)).length := length_jsTrim_le _
        _ ≤ (p.filter (fun c => !(c == '<' || c == '>'))).length := List.length_filter_le _ _
        _ ≤ p.length := List.length_filter_le _ _
        _ ≤ 5000 := hlen
    · intro c hc
      simp only [sanitizePipeline] at hc
      exact jsTrim_head?_not_ws hc
    · intro c hc
      simp only [sanitizePipeline] at hc
      exact jsTrim_getLast?_not_ws hc

/-- C10 witness: a concrete prompt with angle brackets, a tab control
character, and surrounding whitespace passes validation, and the spawned
argument is the fully sanitized trimmed form (whose length bound follows
by the theorem). -/
theorem C10_sanitized_prompt_safety_witness :
    analysisSpawnArg (some (" show impact of <b>EC2</b> maintenance\t".toList)) =
      some ("show impact of bEC2/b maintenance".toList) ∧
    ("show impact of bEC2/b maintenance".toList).length ≤ 5000 :=
  have h : analysisSpawnArg (some (" show impact of <b>EC2</b> maintenance\t".toList)) =
      some ("show impact of bEC2/b maintenance".toList) := by decide
  ⟨h, (C10_sanitized_prompt_safety _ _ h).2.2.1⟩

/-! ### HTML extraction from captured stdout

Two distinct extraction pipelines exist in the server.

The synchronous refresh close handlers run
`output.match(/ fenced html block /)` first, fall back to
`output.match(/<html[\s\S]*?<\/html>/i)`, and otherwise use the raw
captured output.

The streaming close handler instead looks for an `<html[^>]*>` start tag
and a `</html>` end tag, falls back to the lines that contain an
HTML-like tag, then to the "substantial" non-log lines, then to the
trimmed raw buffer, and finally deduplicates repeated whole documents and
repeated tables. -/

/-- Substring inclusion (JavaScript `String.prototype.includes`). -/
def includesL (pat s : List Char) : Bool :=
  (findSub pat s).isSome

/-- First regex match of the fenced block pattern used by the refresh
handlers: the capture sits between the first occurrence of the 7-character
opener and the first triple-backtick after it (the handler trims the
capture, so the surrounding whitespace split is immaterial). -/
def fencedHtmlBlock (s : List Char) : Option (List Char) :=
  match findSub ("```html".toList) s with
  | none => none
  | some i =>
    match findSub ("```".toList) (s.drop (i + 7)) with
    | none => none
    | some j => some ((s.drop (i + 7)).take j)

/-- First match of `/<html[\s\S]*?<\/html>/i`: from the first
case-insensitive `<html` to the end of the first `</html>` after it. -/
def htmlTagPairMatch (s : List Char) : Option (List Char) :=
  match findSub ("<html".toList) (lowerAll s) with
  | none => none
  | some i =>
    match findSub ("</html>".toList) ((lowerAll s).drop (i + 5)) with
    | none => none
    | some j => some (jsSubstring s i (i + 5 + j + 7))

/-- The refresh close handlers' extraction: fenced block capture
(trimmed), else the `<html>…</html>` pair, else the raw output. -/
def refreshExtract (out : List Char) : List Char :=
  match fencedHtmlBlock out with
  | some inner => jsTrim inner
  | none =>
    match htmlTagPairMatch out with
    | some doc => doc
    | none => out

/-- Start index of the first match of `/<html[^>]*>/i` (the handler then
recovers this index with `indexOf` on the matched text): present when a
`>` closes the start tag. -/
def htmlOpenTagStart (s : List Char) : Option Nat :=
  match findSub ("<html".toList) (lowerAll s) with
  | none => none
  | some i =>
    match List.findIdx? (fun c => c = '>') (s.drop (i + 5)) with
    | none => none
    | some _ => some i

/-- `htmlEnd` of the streaming handler: the text of the *first*
case-insensitive `</html>` match, located again with `lastIndexOf`, plus
its length. -/
def htmlEndLastIdx (s : List Char) : Option Nat :=
  match findSub ("</html>".toList) (lowerAll s) with
  | none => none
  | some e =>
    match findSubLast ((s.drop e).take 7) s with
    | none => none
    | some l => some (l + 7)

/-- Test of `/<[^>]+>/` on a list: some `<` is followed by at least one
non-`>` character and then a `>`. -/
def tagTest : List Char → Bool
  | [] => false
  | c :: rest =>
    c = '<' &&
      (match List.findIdx? (fun d => d = '>') rest with
       | none => false
       | some k => decide (k ≥ 1))

/-- Does any suffix of the list start an HTML-like tag? -/
def hasHtmlLikeTag (s : List Char) : Bool :=
  existsSuffix tagTest s

/-- `responseBuffer.split('\n')`. -/
def splitLines (s : List Char) : List (List Char) :=
  List.splitOn '\n' s

/-- The substantial-line filter of the streaming fallback: trimmed length
over 50 and no `INFO:`, `ERROR:` or analyzing-progress marker. -/
def isSubstantialLine (l : List Char) : Bool :=
  decide ((jsTrim l).length > 50) && !(includesL ("INFO:".toList) l) &&
  !(includesL ("ERROR:".toList) l) && !(includesL ("🔍 Analyzing".toList) l)

/-- Steps 1–2 of the streaming extraction: the `<html…>`…`</html>` region
when both boundary patterns match, else the span of lines carrying
HTML-like tags (guarded by a whole-buffer tag test); empty when neither
applies. -/
def streamStep12 (buf : List Char) : List Char :=
  match htmlOpenTagStart buf, htmlEndLastIdx buf with
  | some i, some e => jsTrim (jsSubstring buf i e)
  | _, _ =>
    if hasHtmlLikeTag buf then
      let lines := splitLines buf
      match List.findIdx? hasHtmlLikeTag lines with
      | none => []
      | some si =>
        let ei := lines.length - 1 - (List.findIdx? hasHtmlLikeTag lines.reverse).getD 0
        jsTrim (List.intercalate ['\n'] ((lines.drop si).take (ei + 1 - si)))
    else []

/-- Steps 1–4 of the streaming extraction: after the tag-based attempts,
fall back to the substantial lines, then to the trimmed buffer, then to
the fixed no-output message. -/
def streamCoreExtract (buf : List Char) : List Char :=
  let r1 := streamStep12 buf
  let r2 :=
    if r1.isEmpty then
      jsTrim (List.intercalate ['\n'] ((splitLines buf).filter isSubstantialLine))
    else r1
  if r2.isEmpty then
    if (jsTrim buf).isEmpty then "Analysis completed but no output was captured.".toList
    else jsTrim buf
  else r2

/-- Leftmost match of an `<open…[^>]*>[\s\S]*?</close>` block pattern:
start of the first case-insensitive open tag that is closed by a `>`,
through the first close tag after it. -/
def tagBlockFirstMatch (openTag closeTag s : List Char) : Option (Nat × Nat) :=
  match findSub openTag (lowerAll s) with
  | none => none
  | some i =>
    match List.findIdx? (fun c => c = '>') (s.drop (i + openTag.length)) with
    | none => none
    | some k =>
      match findSub closeTag ((lowerAll s).drop (i + openTag.length + k + 1)) with
      | none => none
      | some j =>
        some (i, i + openTag.length + k + 1 + j + closeTag.length)

/-- All matches of the block pattern, as produced by a global regex: scan
the remainder after each match. -/
def tagBlockMatches (openTag closeTag : List Char) : Nat → List Char → List (List Char)
  | 0, _ => []
  | Nat.succ fuel, s =>
    match tagBlockFirstMatch openTag closeTag s with
    | none => []
    | some (a, b) => jsSubstring s a b :: tagBlockMatches openTag closeTag fuel (s.drop b)

/-- Whole-document deduplication of the streaming handler: when more than
one `<html…>…</html>` document is present, keep only the last, trimmed. -/
def dedupHtmlDocs (r : List Char) : List Char :=
  let ms := tagBlockMatches ("<html".toList) ("</html>".toList) (r.length + 1) r
  if ms.length > 1 then jsTrim (ms.getLastD []) else r

/-- `cleanedResponse.replace(table, '')`: remove the first occurrence of
the literal pattern. -/
def replaceFirst (s pat : List Char) : List Char :=
  match findSub pat s with
  | none => s
  | some i => s.take i ++ s.drop (i + pat.length)

/-- Table deduplication of the streaming handler: when the table matches
contain duplicates, every table occurrence after the first match-list
entry removes one occurrence of its text from the response (the
`uniqueTables` membership test of the source is retained even though it
always holds; `List.dedup` agrees with the JavaScript `Set` on the length
and membership used here). -/
def dedupTables (r : List Char) : List Char :=
  let ts := tagBlockMatches ("<table".toList) ("</table>".toList) (r.length + 1) r
  if ts.length > 1 then
    let uniq := ts.dedup
    if uniq.length < ts.length then
      jsTrim (ts.enum.foldl
        (fun acc p => if p.1 > 0 && uniq.contains p.2 then replaceFirst acc p.2 else acc) r)
    else r
  else r

/-- The full streaming extraction delivered by the close handler on a
clean exit with output. -/
def streamFinalResponse (buf : List Char) : List Char :=
  dedupTables (dedupHtmlDocs (streamCoreExtract buf))

/-- A captured stdout consisting solely of a fenced html block. -/
def fencedDemoOut : List Char :=
  "```html\nHello health\n```".toList

/-- A captured stdout with one log line and one substantial line. -/
def logDemoOut : List Char :=
  "INFO: starting\nAAAAAAAAAAAAAAAAAAAAAAAAAAAAAAAAAAAAAAAAAAAAAAAAAAAAAAA".toList

/-! ### Claim C6 -/

/-- C6 counterexample: on a stdout consisting solely of a fenced html
block, the refresh path extracts the fenced content, but the streaming
path — which the claim also covers — does not: it broadcasts the raw
trimmed buffer.  And on a fence-less, tag-less stdout, the refresh path
returns the raw output rather than the claimed substantial-lines
fallback. -/
theorem C6_counterexample :
    refreshExtract fencedDemoOut = "Hello health".toList ∧
    streamFinalResponse fencedDemoOut = fencedDemoOut ∧
    streamFinalResponse fencedDemoOut ≠ "Hello health".toList ∧
    refreshExtract logDemoOut = logDemoOut ∧
    refreshExtract logDemoOut ≠
      jsTrim (List.intercalate ['\n'] ((splitLines logDemoOut).filter isSubstantialLine)) := by
  refine ⟨by decide, by decide, by decide, by decide, by decide⟩

/-- C6 amended: on the synchronous refresh paths, extraction first looks
for a fenced html code block (returning its trimmed capture); only if
none is present does it fall back to the first `<html>…</html>` tag pair;
and if neither is present it falls back to the raw captured stdout, not
to substantial-line filtering.  The streaming close handler has no
fenced-block step: its first preference is the `<html…>`…`</html>`
region, and on a stdout consisting solely of a fenced block it broadcasts
the raw trimmed buffer instead of the fenced content. -/
theorem C6_extraction_order (out : List Char) :
    (∀ inner, fencedHtmlBlock out = some inner → refreshExtract out = jsTrim inner) ∧
    (∀ doc, fencedHtmlBlock out = none → htmlTagPairMatch out = some doc →
      refreshExtract out = doc) ∧
    (fencedHtmlBlock out = none → htmlTagPairMatch out = none → refreshExtract out = out) ∧
    (∀ i e, htmlOpenTagStart out = some i → htmlEndLastIdx out = some e →
      streamStep12 out = jsTrim (jsSubstring out i e)) ∧
    streamFinalResponse fencedDemoOut = jsTrim fencedDemoOut := by
  refine ⟨?_, ?_, ?_, ?_, by decide⟩
  · intro inner h
    simp [refreshExtract, h]
  · intro doc h1 h2
    simp [refreshExtract, h1, h2]
  · intro h1 h2
    simp [refreshExtract, h1, h2]
  · intro i e h1 h2
    simp [streamStep12, h1, h2]

/-- C6 witness: the three refresh-path cases and the streaming first
preference, each at a concrete captured stdout. -/
theorem C6_extraction_order_witness :
    refreshExtract fencedDemoOut = jsTrim ("\nHello health\n".toList) ∧
    refreshExtract ("x<html>A</html>y".toList) = "<html>A</html>".toList ∧
    refreshExtract logDemoOut = logDemoOut ∧
    streamStep12 ("x<html>A</html>y".toList) =
      jsTrim (jsSubstring ("x<html>A</html>y".toList) 1 15) :=
  ⟨(C6_extraction_order fencedDemoOut).1 ("\nHello health\n".toList) (by decide),
   (C6_extraction_order ("x<html>A</html>y".toList)).2.1 ("<html>A</html>".toList)
     (by decide) (by decide),
   (C6_extraction_order logDemoOut).2.2.1 (by decide) (by decide),
   (C6_extraction_order ("x<html>A</html>y".toList)).2.2.2.1 1 15 (by decide) (by decide)⟩

/-! ### Delivery state machines of the analysis endpoints

The synchronous refresh handlers guard every delivery trigger — the
primary 60-second timer, the process close handler, and a second
60-second timer — with the shared `responseSent` flag.  The streaming
handler has no such flag: its close handler and its two timers broadcast
unconditionally (the secondary timer only checks `pythonProcess.killed`,
which stays false when the process exited on its own).  Both handlers are
modelled as step functions over the events the runtime can deliver;
the single-threaded event loop runs each handler atomically, so a run is
a fold over an event sequence. -/

/-- Events deliverable to a refresh-handler invocation. -/
inductive RefreshEv where
  | stdoutData (d : List Char)
  | stderrData (d : List Char)
  | primaryTimeout
  | closeEv (code : Option Int)
  | secondaryTimeout
deriving DecidableEq

/-- HTTP responses the refresh handler can send. -/
inductive RefreshResp where
  | okResp (output : List Char) (ttl : ℚ)
  | err500
  | timeout504
  | timeout408
deriving DecidableEq

/-- State of one refresh-handler invocation. -/
structure RefreshState where
  outputBuf : List Char
  errorBuf : List Char
  responseSent : Bool
  responses : List RefreshResp
  cacheFile : CacheFileState
deriving DecidableEq

/-- One step of the refresh handler: every response-sending trigger first
checks `responseSent` and sets it; a clean close extracts the HTML,
writes the cache entry (carrying the TTL forward) and answers 200. -/
def refreshStep (now : Int) (promptText : String) (s : RefreshState) : RefreshEv → RefreshState
  | RefreshEv.stdoutData d => { s with outputBuf := s.outputBuf ++ d }
  | RefreshEv.stderrData d => { s with errorBuf := s.errorBuf ++ d }
  | RefreshEv.primaryTimeout =>
    if s.responseSent then s
    else { s with responseSent := true, responses := s.responses ++ [RefreshResp.timeout504] }
  | RefreshEv.closeEv code =>
    if s.responseSent then s
    else if code = some 0 then
      { s with responseSent := true,
               responses := s.responses ++
                 [RefreshResp.okResp (refreshExtract s.outputBuf) (existingTtlOf s.cacheFile)],
               cacheFile := CacheFileState.readable
                 (refreshCacheWrite s.cacheFile now
                   (String.mk (refreshExtract s.outputBuf)) promptText) }
    else { s with responseSent := true, responses := s.responses ++ [RefreshResp.err500] }
  | RefreshEv.secondaryTimeout =>
    if s.responseSent then s
    else { s with responseSent := true, responses := s.responses ++ [RefreshResp.timeout408] }

/-- The initial state of a refresh invocation over a given cache file. -/
def refreshInit (file : CacheFileState) : RefreshState :=
  RefreshState.mk [] [] false [] file

/-- A refresh invocation processing an event sequence. -/
def refreshRun (now : Int) (p : String) (evs : List RefreshEv) (s : RefreshState) : RefreshState :=
  evs.foldl (refreshStep now p) s

/-- Events deliverable to a streaming-handler invocation. -/
inductive StreamEv where
  | stdoutData (d : List Char)
  | stderrData (d : List Char)
  | primaryTimeout
  | closeEv (code : Option Int)
  | secondaryTimeout
  | procError (m : List Char)
deriving DecidableEq

/-- WebSocket broadcasts of the streaming handler. -/
inductive BroadcastMsg where
  | agentProgress (m : List Char)
  | throttlingError (m : List Char)
  | agentError (m : List Char)
  | agentOutput (m : List Char)
  | agentFailed (m : List Char)
  | errorMsg (m : List Char)
deriving DecidableEq

/-- State of one streaming-handler invocation. -/
structure StreamState where
  responseBuffer : List Char
  hasOutput : Bool
  killed : Bool
  timeoutCleared : Bool
  exited : Bool
  broadcasts : List BroadcastMsg
  lastAnalysisResponse : List Char
deriving DecidableEq

/-- The throttling warning broadcast for recoverable stderr content. -/
def throttleWarnMsg : List Char :=
  "⚠️ Rate limiting detected. Please wait a moment and try again. The system is temporarily throttled to prevent overload.".toList

/-- Classification of a stderr chunk by the streaming handler: log noise
is dropped, database-validation errors and rate-limit signatures are
surfaced as recoverable events, everything else as an error event. -/
def streamStderrMsg (d : List Char) : Option BroadcastMsg :=
  if includesL ("INFO".toList) d || includesL ("Found credentials".toList) d then none
  else if includesL ("ValidationException".toList) d ||
      includesL ("DynamoDB query failed".toList) d then
    some (BroadcastMsg.agentProgress ("🔧 Correcting database query...".toList))
  else if includesL ("throttling".toList) d || includesL ("ThrottlingException".toList) d ||
      includesL ("rate limit".toList) d then
    some (BroadcastMsg.throttlingError throttleWarnMsg)
  else some (BroadcastMsg.agentError (("Error: ".toList) ++ jsTrim d))

/-- Terminal message of the code-1-no-salvage and null-code branches. -/
def failedMsg : List Char :=
  "Analysis failed. Please try again.".toList

/-- Broadcast for a clean exit that produced no stdout. -/
def noOutputGeneratedMsg : List Char :=
  "Analysis completed but no output was generated. Please check if the cache file exists and contains data.".toList

/-- Broadcast for a `null` exit code. -/
def terminatedMsg : List Char :=
  "Analysis process was terminated due to timeout or system error. Please try again.".toList

/-- Broadcast of the secondary 60-second timer. -/
def timedOut60Msg : List Char :=
  "Agent analysis timed out after 60 seconds".toList

/-- Broadcast for a nonzero exit code without rate-limit signature. -/
def exitCodeFailMsg (code : Option Int) : List Char :=
  ("Agent analysis failed with exit code: ".toList) ++ (toString (code.getD 0)).toList ++
  (". Please try again or contact support if the issue persists.".toList)

/-- The rate-limit HTML notice, with the raw prompt interpolated. -/
def rateLimitNotice (promptRaw : List Char) : List Char :=
  ("<h3>⚠️ Rate Limiting Detected</h3>\n              <p>The AWS API is currently rate limiting requests. This is a temporary condition that helps prevent system overload.</p>\n              <p><strong>What you can do:</strong></p>\n              <ul>\n                <li>Wait 30-60 seconds and try your query again</li>\n                <li>Try a more specific query to reduce data processing</li>\n                <li>Use cached prompts from the dropdown for faster responses</li>\n              </ul>\n              <p>Your query \"".toList) ++
  promptRaw ++ ("\" has been saved and you can retry it shortly.</p>".toList)

/-- One step of the streaming handler.  No step consults a delivery flag:
the close handler always broadcasts, the primary timer is disabled only
by `clearTimeout` on close, and the secondary timer checks only
`pythonProcess.killed`, which remains false when the process exited by
itself (a kill signal to an exited process fails). -/
def streamStep (promptRaw : List Char) (s : StreamState) : StreamEv → StreamState
  | StreamEv.stdoutData d =>
    if includesL ("Processing user query:".toList) d then
      { s with responseBuffer := s.responseBuffer ++ d, hasOutput := true,
               broadcasts := s.broadcasts ++ [BroadcastMsg.agentProgress ("🔍 Analyzing...".toList)] }
    else { s with responseBuffer := s.responseBuffer ++ d, hasOutput := true }
  | StreamEv.stderrData d =>
    match streamStderrMsg d with
    | none => s
    | some m => { s with broadcasts := s.broadcasts ++ [m] }
  | StreamEv.primaryTimeout =>
    if s.timeoutCleared then s
    else { s with killed := true,
                  broadcasts := s.broadcasts ++ [BroadcastMsg.errorMsg ("Analysis timeout".toList)] }
  | StreamEv.closeEv code =>
    if code = some 0 ∧ s.hasOutput = true then
      { s with timeoutCleared := true, exited := true,
               lastAnalysisResponse := streamFinalResponse s.responseBuffer,
               broadcasts := s.broadcasts ++
                 [BroadcastMsg.agentOutput (streamFinalResponse s.responseBuffer)] }
    else if code = some 1 ∧ s.hasOutput = true then
      match htmlOpenTagStart s.responseBuffer, htmlEndLastIdx s.responseBuffer with
      | some i, some e =>
        if (jsTrim (jsSubstring s.responseBuffer i e)).isEmpty then
          { s with timeoutCleared := true, exited := true,
                   broadcasts := s.broadcasts ++ [BroadcastMsg.agentFailed failedMsg] }
        else
          { s with timeoutCleared := true, exited := true,
                   broadcasts := s.broadcasts ++
                     [BroadcastMsg.agentOutput (jsTrim (jsSubstring s.responseBuffer i e))] }
      | _, _ =>
        { s with timeoutCleared := true, exited := true,
                 broadcasts := s.broadcasts ++ [BroadcastMsg.agentFailed failedMsg] }
    else if code = some 0 ∧ s.hasOutput = false then
      { s with timeoutCleared := true, exited := true,
               broadcasts := s.broadcasts ++ [BroadcastMsg.agentOutput noOutputGeneratedMsg] }
    else if code = none then
      { s with timeoutCleared := true, exited := true,
               broadcasts := s.broadcasts ++ [BroadcastMsg.agentFailed terminatedMsg] }
    else if includesL ("throttling".toList) s.responseBuffer ||
        includesL ("ThrottlingException".toList) s.responseBuffer ||
        includesL ("rate limit".toList) s.responseBuffer then
      { s with timeoutCleared := true, exited := true,
               broadcasts := s.broadcasts ++
                 [BroadcastMsg.agentOutput (rateLimitNotice promptRaw)] }
    else
      { s with timeoutCleared := true, exited := true,
               broadcasts := s.broadcasts ++ [BroadcastMsg.agentFailed (exitCodeFailMsg code)] }
  | StreamEv.secondaryTimeout =>
    if s.killed then s
    else { s with killed := (if s.exited then s.killed else true),
                  broadcasts := s.broadcasts ++ [BroadcastMsg.agentFailed timedOut60Msg] }
  | StreamEv.procError m =>
    { s with broadcasts := s.broadcasts ++
        [BroadcastMsg.agentError (("Process error: ".toList) ++ m)] }

/-- Initial state of a streaming invocation. -/
def streamInit : StreamState :=
  StreamState.mk [] false false false false [] []

/-- A streaming invocation processing an event sequence. -/
def streamRun (promptRaw : List Char) (evs : List StreamEv) (s : StreamState) : StreamState :=
  evs.foldl (streamStep promptRaw) s

/-- Messages that deliver a terminal result or failure for the
submission (`agent_output`, `agent_failed`, and the primary timer's
`error`). -/
def isTerminalDelivery : BroadcastMsg → Bool
  | BroadcastMsg.agentOutput _ => true
  | BroadcastMsg.agentFailed _ => true
  | BroadcastMsg.errorMsg _ => true
  | _ => false

/-- Number of terminal deliveries broadcast so far. -/
def deliveredCount (s : StreamState) : Nat :=
  (s.broadcasts.filter isTerminalDelivery).length

/-- The at-most-once invariant of a refresh invocation. -/
def refreshInv (s : RefreshState) : Prop :=
  (s.responseSent = false → s.responses = []) ∧ s.responses.length ≤ 1

theorem refreshStep_inv (now : Int) (p : String) (s : RefreshState) (ev : RefreshEv)
    (h : refreshInv s) : refreshInv (refreshStep now p s ev) := by
  obtain ⟨h1, h2⟩ := h
  cases ev with
  | stdoutData d => exact ⟨h1, h2⟩
  | stderrData d => exact ⟨h1, h2⟩
  | primaryTimeout =>
    cases hs : s.responseSent with
    | true => simpa [refreshStep, refreshInv, hs] using h2
    | false => simp [refreshStep, refreshInv, hs, h1 hs]
  | closeEv code =>
    cases hs : s.responseSent with
    | true => simpa [refreshStep, refreshInv, hs] using h2
    | false =>
      by_cases hc : code = some 0 <;> simp [refreshStep, refreshInv, hs, h1 hs, hc]
  | secondaryTimeout =>
    cases hs : s.responseSent with
    | true => simpa [refreshStep, refreshInv, hs] using h2
    | false => simp [refreshStep, refreshInv, hs, h1 hs]

theorem refreshRun_inv (now : Int) (p : String) (evs : List RefreshEv) :
    ∀ s, refreshInv s → refreshInv (refreshRun now p evs s) := by
  induction evs with
  | nil => intro s h; simpa [refreshRun] using h
  | cons e t ih =>
    intro s h
    have hstep := refreshStep_inv now p s e h
    simpa [refreshRun] using ih (refreshStep now p s e) hstep

theorem refreshStep_sent (now : Int) (p : String) (s : RefreshState) (ev : RefreshEv)
    (h : s.responseSent = true) :
    (refreshStep now p s ev).responses = s.responses ∧
    (refreshStep now p s ev).responseSent = true := by
  cases ev <;> simp [refreshStep, h]

theorem refreshRun_sent (now : Int) (p : String) (evs : List RefreshEv) :
    ∀ s, s.responseSent = true → (refreshRun now p evs s).responses = s.responses := by
  induction evs with
  | nil => intro s _; simp [refreshRun]
  | cons e t ih =>
    intro s h
    obtain ⟨hr, hs⟩ := refreshStep_sent now p s e h
    have := ih (refreshStep now p s e) hs
    simpa [refreshRun, hr] using this

/-! ### Claim C2 -/

/-- C2 counterexample: on the streaming endpoint, a submission whose
process exits cleanly at once (delivering `agent_output`) is followed by
the never-cancelled secondary 60-second timer, which broadcasts a second
terminal `agent_failed` for the same submission — the later delivery
attempt is not a silent no-op, and two terminal results are delivered. -/
theorem C2_counterexample :
    (streamRun [] [StreamEv.stdoutData ("X".toList), StreamEv.closeEv (some 0),
        StreamEv.secondaryTimeout] streamInit).broadcasts =
      [BroadcastMsg.agentOutput ("X".toList), BroadcastMsg.agentFailed timedOut60Msg] ∧
    deliveredCount (streamRun [] [StreamEv.stdoutData ("X".toList), StreamEv.closeEv (some 0),
        StreamEv.secondaryTimeout] streamInit) = 2 := by
  refine ⟨by decide, by decide⟩

/-- C2 amended: on the synchronous refresh endpoints the shared
`responseSent` flag guards all three racing triggers, so at most one HTTP
response is ever sent per submission regardless of firing order, and once
the flag is set every later trigger leaves the response list unchanged.
The streaming endpoint has no such guard (and no submission-id check):
its clean delivery can be followed by a second terminal broadcast from
the uncancelled secondary timer, as the counterexample shows. -/
theorem C2_refresh_single_response :
    (∀ (now : Int) (p : String) (file : CacheFileState) (evs : List RefreshEv),
      ((refreshRun now p evs (refreshInit file)).responses).length ≤ 1) ∧
    (∀ (now : Int) (p : String) (evs : List RefreshEv) (s : RefreshState),
      s.responseSent = true → (refreshRun now p evs s).responses = s.responses) := by
  constructor
  · intro now p file evs
    exact (refreshRun_inv now p evs (refreshInit file) ⟨fun _ => rfl, by simp [refreshInit]⟩).2
  · intro now p evs s h
    exact refreshRun_sent now p evs s h

/-- C2 witness: all three triggers fired in sequence on a fresh
invocation produce exactly one response, and a completed invocation
absorbs further triggers without responding again. -/
theorem C2_refresh_single_response_witness :
    ((refreshRun 0 "p" [RefreshEv.primaryTimeout, RefreshEv.closeEv (some 0),
        RefreshEv.secondaryTimeout] (refreshInit CacheFileState.absent)).responses).length ≤ 1 ∧
    (refreshRun 0 "p" [RefreshEv.secondaryTimeout, RefreshEv.closeEv (some 0)]
        (RefreshState.mk [] [] true [RefreshResp.timeout504] CacheFileState.absent)).responses =
      [RefreshResp.timeout504] :=
  ⟨C2_refresh_single_response.1 0 "p" CacheFileState.absent
      [RefreshEv.primaryTimeout, RefreshEv.closeEv (some 0), RefreshEv.secondaryTimeout],
   C2_refresh_single_response.2 0 "p" [RefreshEv.secondaryTimeout, RefreshEv.closeEv (some 0)]
      (RefreshState.mk [] [] true [RefreshResp.timeout504] CacheFileState.absent) rfl⟩
